import Mathlib

/-!
Shallow embedding of the image-upload gallery application
(a Next.js client page plus two API route handlers backed by a
managed media store).  Machine numbers are modelled as `Nat`,
JavaScript's `undefined`/`null` as `Option`, and the external media
store as an explicit function argument so that each handler's single
remote call is visible in the model.  Floating-point arithmetic in the
byte-size formatter (`Math.log`, `Math.round`) is modelled by the exact
real computation it approximates.  JavaScript string operations are
modelled character-wise on `String.data`, with `Char.toLower` as the
case folding of `toLowerCase`.
-/

/-! ### JavaScript helpers -/

/-- JS truthiness for an optional string: `x || d` yields `d` when `x` is
`null`/`undefined` or the empty string. -/
def jsOrString (value : Option String) (fallback : String) : String :=
  match value with
  | none => fallback
  | some s => if s = "" then fallback else s

/-- JS `Math.round (p / q)` for natural `p` and positive `q`:
round half up, i.e. the floor of `p / q + 1 / 2`. -/
def jsRound (p q : Nat) : Nat :=
  (2 * p + q) / (2 * q)

/-- JS rendering of the number `v / 100` (`v` is the value scaled by 100):
trailing zero decimals are not printed, as with JS number-to-string. -/
def jsNumToString2 (v : Nat) : String :=
  if v % 100 = 0 then toString (v / 100)
  else if v % 10 = 0 then toString (v / 100) ++ "." ++ toString (v / 10 % 10)
  else toString (v / 100) ++ "." ++ toString (v / 10 % 10) ++ toString (v % 10)

/-- Substring test: JS `s.includes(pat)`. -/
def containsSubstr (s pat : String) : Bool :=
  decide (pat.data <:+: s.data)

/-- JS `s.startsWith(pre)`, on the character level. -/
def jsStartsWith (s pre : String) : Bool :=
  pre.data.isPrefixOf s.data

/-- JS `s.toLowerCase()`: case folding, modelled character-wise by
`Char.toLower`. -/
def jsToLower (s : String) : String :=
  ⟨s.data.map Char.toLower⟩

/-! ### Data model (client page, `part_000`) -/

/-- The client-side `UploadedImage` interface; `uploadedAt` (a JS `Date`)
is kept as its wire string. -/
structure UploadedImage where
  id : String
  url : String
  publicId : String
  originalName : String
  uploadedAt : String
  width : Option Nat := none
  height : Option Nat := none
  format : Option String := none
  bytes : Option Nat := none
deriving DecidableEq, Repr

/-- A file handed to `handleFileUpload` (name and declared MIME type). -/
structure FileData where
  name : String
  type : String
deriving DecidableEq, Repr

/-- Observable effects of the client page's upload path, in program
order: state-setter calls, issued upload requests, the list re-fetch,
and user-facing alerts. -/
inductive UIEvent where
  | setUploading (flag : Bool)
  | uploadCall (file : FileData)
  | fetchImages
  | alert (msg : String)
deriving DecidableEq, Repr

/-- The client-side filter applied in `handleFileUpload`:
`file.type.startsWith('image/')`. -/
def isImageFile (f : FileData) : Bool :=
  jsStartsWith f.type ("image/")

/-- `handleFileUpload` as an event trace.  `uploadOk` is the
environment: whether the upload issued for a given file succeeds.
The source returns immediately on a null or empty file list; otherwise
it sets `uploading`, pushes one `uploadToCloudinary` call per file whose
type starts with `image/`, awaits `Promise.all`, on success awaits
`fetchImages()` (which never throws: it catches internally), on any
failure alerts instead, and finally clears `uploading`. -/
def handleFileUpload (files : Option (List FileData))
    (uploadOk : FileData → Bool) : List UIEvent :=
  match files with
  | none => []
  | some fs =>
    if fs.length = 0 then []
    else
      let queued := fs.filter isImageFile
      UIEvent.setUploading true ::
        (queued.map UIEvent.uploadCall ++
          (if queued.all uploadOk then [UIEvent.fetchImages]
           else [UIEvent.alert ("Upload failed. Please try again.")]) ++
          [UIEvent.setUploading false])

/-- The upload request issued for an event, if any. -/
def eventFile : UIEvent → Option FileData
  | UIEvent.uploadCall f => some f
  | _ => none

/-- The sequence of upload requests issued in a trace. -/
def uploadCallsOf (evs : List UIEvent) : List FileData :=
  evs.filterMap eventFile

/-- A concrete three-file selection, one of which is not an image. -/
def sampleBatch : List FileData :=
  [{ name := "a.png", type := "image/png" },
   { name := "b.txt", type := "text/plain" },
   { name := "c.jpg", type := "image/jpeg" }]

/-- The gallery's search filter (`filteredImages` in the page source):
keep the images whose lower-cased `originalName` or `publicId` contains
the lower-cased search term. -/
def filteredImages (images : List UploadedImage) (searchTerm : String) :
    List UploadedImage :=
  images.filter (fun image =>
    containsSubstr (jsToLower image.originalName) (jsToLower searchTerm)
      || containsSubstr (jsToLower image.publicId) (jsToLower searchTerm))

/-- The byte-size unit array of `formatFileSize`. -/
def sizes : List String := ["Bytes", "KB", "MB", "GB"]

/-- `formatFileSize` from the page source.  The first guard is the JS
`if (!bytes) return 'Unknown'`, whose truthiness test catches both
`undefined` and `0`; the following `if (bytes === 0) return '0 Byte'`
branch of the source is kept even though it is unreachable.  For
positive `b` the unit index is `floor(log_1024 b)` (an out-of-range
index renders as JS `undefined`) and the scaled value is rounded to two
decimals. -/
def formatFileSize (bytes : Option Nat) : String :=
  match bytes with
  | none => "Unknown"
  | some b =>
    if b = 0 then "Unknown"
    else if b = 0 then "0 Byte"
    else
      let i := Nat.log 1024 b
      jsNumToString2 (jsRound (b * 100) (1024 ^ i)) ++ " " ++
        sizes.getD i ("undefined")

/-! ### Server data model (API routes) -/

/-- The raw file payload forwarded to the store by the upload route. -/
structure FileBlob where
  name : String
  bytes : List Nat
deriving DecidableEq, Repr

/-- An error reported by the media store. -/
structure StoreError where
  message : String
deriving DecidableEq, Repr

/-- The store's stored-object record as consumed by the upload route. -/
structure UploadResult where
  public_id : String
  secure_url : String
  width : Option Nat := none
  height : Option Nat := none
  format : Option String := none
  bytes : Option Nat := none
  created_at : String
deriving DecidableEq, Repr

/-- An HTTP JSON response: success body, or an error status with the
body `\x7b error: msg \x7d`. -/
inductive ApiResponse (α : Type) where
  | success (body : α)
  | failure (status : Nat) (error : String)
deriving DecidableEq, Repr

/-- Everything observable about one run of the upload route handler:
its HTTP response, the store upload calls it issued, and the errors it
logged server-side. -/
structure PostOutcome where
  response : ApiResponse UploadResult
  storeCalls : List FileBlob
  loggedErrors : List StoreError
deriving DecidableEq, Repr

/-- The `POST /api/upload` handler.  `file` is `formData.get('file')`
(`none` when the form has no `file` part); `store` is the media store's
upload operation.  A missing file yields a 400; a store failure is
logged twice (once in the stream callback, once in the outer catch) and
yields a 500 with the constant body `Upload failed`; on success the
store record is returned. -/
def POST (file : Option FileBlob)
    (store : FileBlob → Except StoreError UploadResult) : PostOutcome :=
  match file with
  | none =>
      { response := .failure 400 ("No file provided")
        storeCalls := []
        loggedErrors := [] }
  | some f =>
      match store f with
      | .error e =>
          { response := .failure 500 ("Upload failed")
            storeCalls := [f]
            loggedErrors := [e, e] }
      | .ok r =>
          { response := .success r
            storeCalls := [f]
            loggedErrors := [] }

/-- A resource descriptor returned by the store's search operation
(`original_filename` may be absent). -/
structure Resource where
  public_id : String
  secure_url : String
  width : Option Nat := none
  height : Option Nat := none
  format : Option String := none
  bytes : Option Nat := none
  created_at : String
  original_filename : Option String := none
deriving DecidableEq, Repr

/-- The store's search response: a page of resources plus the folder's
total count. -/
structure SearchResult where
  resources : List Resource
  total_count : Nat
deriving DecidableEq, Repr

/-- The search request built by the list route:
`expression(...)`, `sort_by(field, direction)`, `max_results(n)`. -/
structure SearchRequest where
  expression : String
  sort_field : String
  sort_direction : String
  max_results : Nat
deriving DecidableEq, Repr

/-- One image entry of the list route's response body. -/
structure ImageDescriptor where
  public_id : String
  secure_url : String
  width : Option Nat := none
  height : Option Nat := none
  format : Option String := none
  bytes : Option Nat := none
  created_at : String
  original_filename : String
deriving DecidableEq, Repr

/-- The list route's success body. -/
structure ListBody where
  images : List ImageDescriptor
  total_count : Nat
deriving DecidableEq, Repr

/-- The folder the list route searches:
`searchParams.get('folder') || 'gallery'`. -/
def effectiveFolder (folderParam : Option String) : String :=
  jsOrString folderParam ("gallery")

/-- The search request the list route sends for a folder:
expression `folder:<folder>/*`, sorted by `created_at` descending,
capped at 500 results. -/
def searchRequestFor (folder : String) : SearchRequest :=
  { expression := "folder:" ++ folder ++ "/*"
    sort_field := "created_at"
    sort_direction := "desc"
    max_results := 500 }

/-- The list route's per-resource mapping: copy the descriptor fields
and default `original_filename` with JS `||` (so a missing or empty
store filename becomes the `public_id`). -/
def normalizeResource (r : Resource) : ImageDescriptor :=
  { public_id := r.public_id
    secure_url := r.secure_url
    width := r.width
    height := r.height
    format := r.format
    bytes := r.bytes
    created_at := r.created_at
    original_filename := jsOrString r.original_filename r.public_id }

/-- The rule the specification states for `original_filename`: the
store's value when present, otherwise the identifier.  Written from the
spec's words, to be compared with `normalizeResource`. -/
def specOriginalFilename (r : Resource) : String :=
  match r.original_filename with
  | some s => s
  | none => r.public_id

/-- The `GET /api/images` handler.  `folderParam` is the optional
`folder` query parameter; `store` is the media store's search
operation, invoked once on `searchRequestFor` of the effective folder.
Store failures yield a 500 with body `Failed to fetch images`. -/
def GET (folderParam : Option String)
    (store : SearchRequest → Except StoreError SearchResult) :
    ApiResponse ListBody :=
  match store (searchRequestFor (effectiveFolder folderParam)) with
  | .error _ => .failure 500 ("Failed to fetch images")
  | .ok r => .success { images := r.resources.map normalizeResource
                        total_count := r.total_count }

/-- A resource whose recorded original filename is the empty string. -/
def emptyNameResource : Resource :=
  { public_id := "gallery/pic1"
    secure_url := "https://res.example/pic1.png"
    created_at := "2024-01-01T00:00:00Z"
    original_filename := some ("") }

/-- A concrete single-image selection. -/
def oneImageBatch : List FileData :=
  [{ name := "a.png", type := "image/png" }]

/-- A concrete file payload. -/
def sampleBlob : FileBlob :=
  { name := "a.png", bytes := [137, 80, 78, 71] }

/-- A store whose upload operation always fails with a network error. -/
def failingStore : FileBlob → Except StoreError UploadResult :=
  fun _ => Except.error { message := "network error" }

/-- A concrete search response of one resource and a larger total. -/
def sampleSearchResult : SearchResult :=
  { resources := [emptyNameResource], total_count := 7 }

/-- A store whose search operation always succeeds with
`sampleSearchResult`. -/
def okStore : SearchRequest → Except StoreError SearchResult :=
  fun _ => Except.ok sampleSearchResult

/-! ### Theorems -/

/-- Helper: projecting the upload events out of a mapped call list gives
the list back. -/
theorem filterMap_eventFile_map_uploadCall (l : List FileData) :
    List.filterMap (eventFile ∘ UIEvent.uploadCall) l = l := by
  induction l with
  | nil => rfl
  | cons a l ih => simp [List.filterMap_cons, eventFile, Function.comp, ih]

/-- C1: the code evaluated at the failing input of the claim: the
source's truthiness guard makes `formatFileSize 0` return `"Unknown"`,
not the claimed `"0 Byte"`; the claim's 1536-byte case does hold. -/
theorem formatFileSize_zero_divergence :
    formatFileSize (some 0) = "Unknown"
    ∧ formatFileSize (some 0) ≠ "0 Byte"
    ∧ formatFileSize (some 1536) = "1.5 KB" := by
  refine ⟨rfl, by decide, ?_⟩
  have h : Nat.log 1024 1536 = 1 :=
    Nat.log_eq_of_pow_le_of_lt_pow (by norm_num) (by norm_num)
  show jsNumToString2 (jsRound (1536 * 100) (1024 ^ Nat.log 1024 1536)) ++ " " ++
      sizes.getD (Nat.log 1024 1536) ("undefined") = "1.5 KB"
  rw [h]
  decide

/-- C2 counterexample: a batch whose single upload fails settles without
`fetchImages` ever being re-run, against the claim's "whether every
upload succeeded or any upload failed". -/
theorem handleFileUpload_failed_batch_skips_fetch :
    UIEvent.fetchImages ∉
      handleFileUpload (some oneImageBatch) (fun _ => false) := by
  decide

/-- C2 (amended): for a non-empty selection, when every issued upload
succeeds the handler re-runs `fetchImages` and only then clears the
uploading flag; when any upload fails it alerts instead of re-fetching
and then clears the flag. -/
theorem handleFileUpload_settle (fs : List FileData)
    (uploadOk : FileData → Bool) (h : fs ≠ []) :
    ((fs.filter isImageFile).all uploadOk = true →
      handleFileUpload (some fs) uploadOk =
        UIEvent.setUploading true ::
          ((fs.filter isImageFile).map UIEvent.uploadCall ++
            [UIEvent.fetchImages, UIEvent.setUploading false]))
    ∧ ((fs.filter isImageFile).all uploadOk = false →
      handleFileUpload (some fs) uploadOk =
        UIEvent.setUploading true ::
          ((fs.filter isImageFile).map UIEvent.uploadCall ++
            [UIEvent.alert ("Upload failed. Please try again."),
             UIEvent.setUploading false])) := by
  have hlen : ¬ fs.length = 0 := by simpa using h
  constructor <;> intro hall <;> simp [handleFileUpload, hlen, hall]

/-- C2 witness: the amended theorem at a concrete one-file batch whose
upload succeeds. -/
theorem handleFileUpload_settle_witness :
    ((oneImageBatch.filter isImageFile).all (fun _ => true) = true →
      handleFileUpload (some oneImageBatch) (fun _ => true) =
        UIEvent.setUploading true ::
          ((oneImageBatch.filter isImageFile).map UIEvent.uploadCall ++
            [UIEvent.fetchImages, UIEvent.setUploading false]))
    ∧ ((oneImageBatch.filter isImageFile).all (fun _ => true) = false →
      handleFileUpload (some oneImageBatch) (fun _ => true) =
        UIEvent.setUploading true ::
          ((oneImageBatch.filter isImageFile).map UIEvent.uploadCall ++
            [UIEvent.alert ("Upload failed. Please try again."),
             UIEvent.setUploading false])) :=
  handleFileUpload_settle oneImageBatch (fun _ => true) (by decide)

/-- C3: membership in the gallery's filtered list is exactly lower-cased
substring containment of the search term in `originalName` or
`publicId`, and the empty search term keeps the full set. -/
theorem filteredImages_spec (images : List UploadedImage) (s : String) :
    (∀ img, img ∈ filteredImages images s ↔
        img ∈ images ∧
          ((jsToLower s).data <:+: (jsToLower img.originalName).data
            ∨ (jsToLower s).data <:+: (jsToLower img.publicId).data))
    ∧ filteredImages images ("") = images := by
  constructor
  · intro img
    simp [filteredImages, List.mem_filter, containsSubstr]
  · apply List.filter_eq_self.mpr
    intro a _
    have h0 : (jsToLower ("")).data = [] := rfl
    simp [containsSubstr, h0]

/-- C4: whenever the store's upload operation fails, the upload route
responds 500 with the constant body error `Upload failed`, logs the
underlying error server-side, and leaks nothing of it to the client. -/
theorem POST_store_failure (f : FileBlob)
    (store : FileBlob → Except StoreError UploadResult) (e : StoreError)
    (h : store f = .error e) :
    POST (some f) store =
      { response := .failure 500 ("Upload failed")
        storeCalls := [f]
        loggedErrors := [e, e] } := by
  simp [POST, h]

/-- C4 witness: the failure theorem at a concrete file and a store that
fails with a network error. -/
theorem POST_store_failure_witness :
    POST (some sampleBlob) failingStore =
      { response := .failure 500 ("Upload failed")
        storeCalls := [sampleBlob]
        loggedErrors := [{ message := "network error" },
                         { message := "network error" }] } :=
  POST_store_failure sampleBlob failingStore { message := "network error" } rfl

/-- C5 counterexample: a store record whose `original_filename` is
present but empty normalizes to the `public_id`, not to the recorded
value required by the spec's present-value rule. -/
theorem normalizeResource_empty_filename_cex :
    (normalizeResource emptyNameResource).original_filename ≠
      specOriginalFilename emptyNameResource := by
  decide

/-- C5 (amended): the list route invokes the store search on the
expression `folder:<folder>/*`, sorted by `created_at` descending,
capped at 500 results; on success it returns the normalized resources
together with the store-reported total count, where `original_filename`
is the store's value when present and non-empty, and the `public_id`
otherwise. -/
theorem GET_list_spec (folderParam : Option String)
    (store : SearchRequest → Except StoreError SearchResult)
    (r : SearchResult)
    (h : store (searchRequestFor (effectiveFolder folderParam)) = .ok r) :
    (searchRequestFor (effectiveFolder folderParam)).expression =
        "folder:" ++ effectiveFolder folderParam ++ "/*"
    ∧ (searchRequestFor (effectiveFolder folderParam)).sort_field = "created_at"
    ∧ (searchRequestFor (effectiveFolder folderParam)).sort_direction = "desc"
    ∧ (searchRequestFor (effectiveFolder folderParam)).max_results = 500
    ∧ GET folderParam store =
        .success { images := r.resources.map normalizeResource
                   total_count := r.total_count }
    ∧ ∀ x ∈ r.resources,
        (normalizeResource x).original_filename =
          match x.original_filename with
          | some s => if s = "" then x.public_id else s
          | none => x.public_id := by
  refine ⟨rfl, rfl, rfl, rfl, by simp [GET, h], ?_⟩
  intro x _
  cases hx : x.original_filename <;> simp [normalizeResource, jsOrString, hx]

/-- C5 witness: the amended theorem at a request with no folder
parameter and a store answering with one resource. -/
theorem GET_list_spec_witness :
    (searchRequestFor (effectiveFolder none)).expression =
        "folder:" ++ effectiveFolder none ++ "/*"
    ∧ (searchRequestFor (effectiveFolder none)).sort_field = "created_at"
    ∧ (searchRequestFor (effectiveFolder none)).sort_direction = "desc"
    ∧ (searchRequestFor (effectiveFolder none)).max_results = 500
    ∧ GET none okStore =
        .success { images := sampleSearchResult.resources.map normalizeResource
                   total_count := sampleSearchResult.total_count }
    ∧ ∀ x ∈ sampleSearchResult.resources,
        (normalizeResource x).original_filename =
          match x.original_filename with
          | some s => if s = "" then x.public_id else s
          | none => x.public_id :=
  GET_list_spec none okStore sampleSearchResult rfl

/-- C6: a request whose form has no `file` part gets a 400 with body
error `No file provided`, and the store's upload operation is never
invoked. -/
theorem POST_missing_file
    (store : FileBlob → Except StoreError UploadResult) :
    POST none store =
      { response := .failure 400 ("No file provided")
        storeCalls := []
        loggedErrors := [] } := rfl

/-- C7: the upload calls issued by `handleFileUpload` are exactly the
selected files whose MIME type starts with `image/`, in order; for the
concrete three-file batch with one `text/plain` file, exactly two calls
are issued. -/
theorem handleFileUpload_image_filter (fs : List FileData)
    (uploadOk : FileData → Bool) :
    uploadCallsOf (handleFileUpload (some fs) uploadOk) = fs.filter isImageFile
    ∧ (uploadCallsOf (handleFileUpload (some sampleBatch) uploadOk)).length
        = 2 := by
  have key : ∀ gs : List FileData,
      uploadCallsOf (handleFileUpload (some gs) uploadOk) =
        gs.filter isImageFile := by
    intro gs
    cases gs with
    | nil => rfl
    | cons g gs' =>
        cases hall : ((g :: gs').filter isImageFile).all uploadOk <;>
          simp [handleFileUpload, uploadCallsOf, hall,
            filterMap_eventFile_map_uploadCall, List.filterMap_append, eventFile]
  refine ⟨key fs, ?_⟩
  rw [key sampleBatch]
  rfl

/-- C8: with the folder query parameter absent, the list route searches
the default folder `gallery`. -/
theorem GET_default_folder
    (store : SearchRequest → Except StoreError SearchResult) :
    effectiveFolder none = "gallery"
    ∧ GET none store = GET (some ("gallery")) store :=
  ⟨rfl, rfl⟩

/-- C9: a null or empty file selection makes `handleFileUpload` return
at once: no event at all is emitted, so no flag changes, no upload is
issued and no list fetch happens. -/
theorem handleFileUpload_noop :
    (∀ uploadOk : FileData → Bool, handleFileUpload none uploadOk = [])
    ∧ (∀ uploadOk : FileData → Bool,
        handleFileUpload (some []) uploadOk = []) :=
  ⟨fun _ => rfl, fun _ => rfl⟩

/-- C10: a folder query parameter that is present but empty also falls
back to `gallery`: the JS `||` default applies to every falsy value,
not only to an absent one. -/
theorem GET_empty_folder_param
    (store : SearchRequest → Except StoreError SearchResult) :
    effectiveFolder (some ("")) = "gallery"
    ∧ GET (some ("")) store = GET none store :=
  ⟨rfl, rfl⟩
